import Mathlib

/-!
Verification development for the math-tutor gateway (`main.py`).

The external collaborators (the hosted Gemini model, the PIL image
library, the SymPy algebra library) are modelled at their interface
boundary: image operations as a free algebra of transformations,
the model replies as explicit oracle values, and SymPy as a small
linear-polynomial engine modelled from the specification.
-/

/-- PIL images, modelled as the free algebra of the operations the
source applies: `Image.open` on raw bytes, `convert(mode)`, and
`ImageOps.autocontrast(cutoff)`. -/
inductive Img where
  | decoded (raw : List Nat)
  | convert (mode : String) (i : Img)
  | autocontrast (cutoff : Nat) (i : Img)
deriving DecidableEq

/-- Byte strings flowing to the model: either raw bytes read from a
file/upload, or the PNG encoding (`img.save(buf, format="PNG")`) of an
image. PNG encoding is kept symbolic. -/
inductive Bytes where
  | raw (bs : List Nat)
  | pngOf (i : Img)
deriving DecidableEq

/-- `preprocess_image` from the source: grayscale conversion,
autocontrast with `cutoff=1`, PNG re-encoding. -/
def preprocess_image (img : Img) : Bytes :=
  Bytes.pngOf (Img.autocontrast 1 (Img.convert "L" img))

/-- Modelled from the spec: the Image Normalizer contract
`normalize(raw_bytes) -> PNG_bytes` — decode the upload, then apply
the normalization steps of `preprocess_image`. (Named `normalize` in
the spec; renamed here to avoid clashing with Mathlib.) -/
def normalizeSpec (raw : List Nat) : Bytes :=
  preprocess_image (Img.decoded raw)

/-- ASCII whitespace as recognised by Python's `str.strip`. -/
def isWsChar (c : Char) : Bool :=
  c == ' ' || c == '\t' || c == '\n' || c == '\r' || c == Char.ofNat 11 || c == Char.ofNat 12

/-- Python `str.strip()`: drop whitespace from both ends. -/
def pyStrip (s : String) : String :=
  ⟨((s.data.dropWhile isWsChar).reverse.dropWhile isWsChar).reverse⟩

/-- The duck-typed input accepted by `ocr_with_gemini`: a file path
(carrying the outcome of reading it and the guessed MIME type), raw
bytes, a PIL image, or anything else (whose type name feeds the
`TypeError`). -/
inductive OcrInput where
  | filePath (readResult : Except String (List Nat)) (mime : Option String)
  | rawBytes (bs : List Nat)
  | pilImage (i : Img)
  | unsupported (typeName : String)

/-- Outcome of the `GEMINI_MODEL.generate_content` call in the OCR
adapter: an exception (transport/auth/quota), or a reply whose `.text`
is absent/`None` (`reply none`) or a string. -/
inductive GenaiResult where
  | raise (msg : String)
  | reply (text : Option String)

/-- The input-preparation prefix of `ocr_with_gemini`'s `try` block:
produces the bytes and MIME type sent to the model, or the message of
the exception raised (file read failure or `TypeError`). -/
def ocrPrepare : OcrInput → Except String (Bytes × Option String)
  | OcrInput.filePath (Except.error e) _ => Except.error e
  | OcrInput.filePath (Except.ok bs) mime => Except.ok (Bytes.raw bs, mime)
  | OcrInput.rawBytes bs => Except.ok (Bytes.raw bs, some "image/png")
  | OcrInput.pilImage i => Except.ok (Bytes.pngOf i, some "image/png")
  | OcrInput.unsupported t => Except.error ("Unsupported input type: " ++ t)

/-- `ocr_with_gemini` from the source: prepare the input, call the
model, and return `response.text.strip() if response and response.text
else ""`; every exception is caught and turned into `""`. -/
def ocr_with_gemini (inp : OcrInput) (gen : GenaiResult) : String :=
  match ocrPrepare inp with
  | Except.error _ => ""
  | Except.ok _ =>
    match gen with
    | GenaiResult.raise _ => ""
    | GenaiResult.reply none => ""
    | GenaiResult.reply (some t) => if t = "" then "" else pyStrip t

/-- Modelled from the spec: SymPy expressions, restricted to the loose
algebraic-notation subset the fallback relies on — linear combinations
of variables with an integer constant, kept in canonical form (terms
sorted by variable name, nonzero coefficients), mirroring SymPy's
automatic evaluation of sums on construction. -/
structure SPoly where
  const : Int
  terms : List (String × Int)
deriving DecidableEq

def SPoly.ofInt (n : Int) : SPoly := ⟨n, []⟩

def SPoly.ofVar (x : String) : SPoly := ⟨0, [(x, 1)]⟩

/-- Add a monomial `c * x` into a sorted coefficient list. -/
def insertTerm (x : String) (c : Int) : List (String × Int) → List (String × Int)
  | [] => if c = 0 then [] else [(x, c)]
  | (y, d) :: rest =>
    if x = y then (if c + d = 0 then rest else (x, c + d) :: rest)
    else if x < y then (if c = 0 then (y, d) :: rest else (x, c) :: (y, d) :: rest)
    else (y, d) :: insertTerm x c rest

def SPoly.add (p q : SPoly) : SPoly :=
  ⟨p.const + q.const, q.terms.foldl (fun acc xc => insertTerm xc.1 xc.2 acc) p.terms⟩

def SPoly.neg (p : SPoly) : SPoly :=
  ⟨-p.const, p.terms.map (fun xc => (xc.1, -xc.2))⟩

def SPoly.sub (p q : SPoly) : SPoly := p.add q.neg

/-- One summand of SymPy's string rendering of a linear combination:
coefficient `1` prints as the bare variable, `-1` as its negation,
anything else as `c*x`; non-leading summands carry their sign. -/
def termStr (leading : Bool) (x : String) (c : Int) : String :=
  if leading then
    if c = 1 then x
    else if c = -1 then "-" ++ x
    else toString c ++ "*" ++ x
  else
    if c = 1 then "+" ++ x
    else if c = -1 then "-" ++ x
    else if c > 0 then "+" ++ toString c ++ "*" ++ x
    else "-" ++ toString (-c) ++ "*" ++ x

/-- Modelled from the spec: `str(expr)` — the algebra library's own
string rendering of expressions, matching the concrete outputs the
spec fixes (`"x-3"`, `"4"`). -/
def SPoly.str (p : SPoly) : String :=
  match p.terms with
  | [] => toString p.const
  | (x, c) :: rest =>
    let body := rest.foldl (fun s yd => s ++ termStr false yd.1 yd.2) (termStr true x c)
    if p.const = 0 then body
    else if p.const > 0 then body ++ "+" ++ toString p.const
    else body ++ "-" ++ toString (-p.const)

def natOfDigits (ds : List Char) : Nat :=
  ds.foldl (fun n c => 10 * n + (c.toNat - 48)) 0

/-- Parse one atom of the loose algebraic subset: an unsigned integer
literal or a variable name. -/
def parseTermP : List Char → Option (SPoly × List Char)
  | [] => none
  | c :: rest =>
    if c.isDigit then
      some (SPoly.ofInt (natOfDigits ((c :: rest).takeWhile Char.isDigit)),
        (c :: rest).dropWhile Char.isDigit)
    else if c.isAlpha then
      some (SPoly.ofVar ⟨(c :: rest).takeWhile Char.isAlpha⟩,
        (c :: rest).dropWhile Char.isAlpha)
    else none

/-- Parse the remainder of a sum: a sequence of `+`/`-` separated
atoms, accumulating into `acc`. -/
def parseRest (fuel : Nat) (acc : SPoly) (cs : List Char) : Option SPoly :=
  match fuel with
  | 0 => none
  | fuel + 1 =>
    match cs.dropWhile isWsChar with
    | [] => some acc
    | '+' :: rest =>
      match parseTermP (rest.dropWhile isWsChar) with
      | some (p, rem) => parseRest fuel (acc.add p) rem
      | none => none
    | '-' :: rest =>
      match parseTermP (rest.dropWhile isWsChar) with
      | some (p, rem) => parseRest fuel (acc.sub p) rem
      | none => none
    | _ => none

/-- Parse a whole expression: optional leading sign, an atom, then the
rest of the sum; must consume the entire input. -/
def parseExpr (s : String) : Option SPoly :=
  let go : List Char → Option SPoly := fun cs =>
    match parseTermP (cs.dropWhile isWsChar) with
    | some (p, rem) => parseRest (s.length + 1) p rem
    | none => none
  match s.data.dropWhile isWsChar with
  | '-' :: rest =>
    match parseTermP (rest.dropWhile isWsChar) with
    | some (p, rem) => parseRest (s.length + 1) p.neg rem
    | none => none
  | '+' :: rest => go rest
  | cs =>
    match parseTermP cs with
    | some (p, rem) => parseRest (s.length + 1) p rem
    | none => none

/-- Modelled from the spec: `sympify(string) -> Expression` — parse a
string of the loose algebraic subset into a symbolic expression, or
raise (here: return an error message) when it cannot be parsed. -/
def sympify (s : String) : Except String SPoly :=
  match parseExpr s with
  | some p => Except.ok p
  | none => Except.error ("Sympify of expression could not parse " ++ s ++ " failed")

/-- Modelled from the spec: `simplify(Expression) -> Expression` —
general symbolic simplification; on the canonical linear combinations
of this model it is the identity. -/
def simplify (p : SPoly) : SPoly := p

/-- Python's `latex_expr.split("=", 1)`: the substrings before and
after the first `=`. -/
def splitFirstEq (s : String) : String × String :=
  (⟨s.data.takeWhile (fun c => c ≠ '=')⟩,
   ⟨(s.data.dropWhile (fun c => c ≠ '=')).drop 1⟩)

/-- JSON values as returned by Python's `json.loads`: strings,
numbers (integers suffice here), booleans, `null`, arrays, and objects
(dicts with unique keys, modelled as association lists). -/
inductive JVal where
  | str (s : String)
  | num (n : Int)
  | bool (b : Bool)
  | null
  | arr (items : List JVal)
  | obj (fields : List (String × JVal))

/-- A solution-step dictionary with keys `step` and `detail` as built
by the source; field values are JSON values because the model-backed
path can put non-string JSON values into them. -/
structure PyStep where
  step : JVal
  detail : JVal

/-- The working expression of the fallback (the body of
`quick_sympy_steps` before simplification): if the input contains `=`,
split on the first occurrence, sympify both sides left first, and form
`lhs - rhs`; otherwise sympify the whole string. The first failure
propagates. -/
def sympyWork (latex_expr : String) : Except String SPoly :=
  if latex_expr.data.contains '=' then
    match sympify (splitFirstEq latex_expr).1 with
    | Except.error e => Except.error e
    | Except.ok lhs =>
      match sympify (splitFirstEq latex_expr).2 with
      | Except.error e => Except.error e
      | Except.ok rhs => Except.ok (lhs.sub rhs)
  else sympify latex_expr

/-- `quick_sympy_steps` from the source: split on the first `=` and
work on `lhs - rhs` (or parse the whole string), simplify, and emit
the two fixed steps; any failure yields the single diagnostic step. -/
def quick_sympy_steps (latex_expr : String) : List PyStep :=
  match sympyWork latex_expr with
  | Except.ok expr =>
    [⟨JVal.str "Parse LaTeX", JVal.str expr.str⟩,
     ⟨JVal.str "Simplify", JVal.str (simplify expr).str⟩]
  | Except.error e =>
    [⟨JVal.str "Could not parse with SymPy", JVal.str e⟩]

/-- Outcome of the solver's `generate_content` + `json.loads` boundary:
an exception somewhere in that prefix (transport failure, unusable
`response.text`, or a JSON parse error), or the parsed JSON value. -/
inductive SolveReply where
  | raise (msg : String)
  | json (data : JVal)

/-- The synthetic in-band failure step of `solve_with_gemini`. -/
def solveErrorStep (msg : String) : PyStep :=
  ⟨JVal.str "AI solver unavailable", JVal.str msg⟩

/-- Python iteration over a JSON value (`for s in steps`): lists yield
their items, strings their one-character substrings, dicts their keys;
numbers, booleans and `None` raise `TypeError`. -/
def pyIter : JVal → Except String (List JVal)
  | JVal.arr xs => Except.ok xs
  | JVal.str s => Except.ok (s.data.map (fun c => JVal.str ⟨[c]⟩))
  | JVal.obj fs => Except.ok (fs.map (fun kv => JVal.str kv.1))
  | JVal.num _ => Except.error "TypeError: int object is not iterable"
  | JVal.bool _ => Except.error "TypeError: bool object is not iterable"
  | JVal.null => Except.error "TypeError: NoneType object is not iterable"

/-- `s.get(key, "")` on a step dict: the stored value when the key is
present (whatever JSON value it is, including `null`), else `""`. -/
def pyGetStr (fs : List (String × JVal)) (key : String) : JVal :=
  (List.lookup key fs).getD (JVal.str "")

/-- The list comprehension of `solve_with_gemini`: keep dict entries,
defaulting missing `step`/`detail` to the empty string. -/
def stepOfEntry : JVal → Option PyStep
  | JVal.obj fs => some ⟨pyGetStr fs "step", pyGetStr fs "detail"⟩
  | _ => none

/-- `solve_with_gemini` from the source: call the model, parse the
reply as JSON, read `data.get("steps", [])`, and build the step list;
any exception inside the `try` is caught and replaced by the single
synthetic "AI solver unavailable" step. -/
def solve_with_gemini (latex_expr : String) (reply : SolveReply) : List PyStep :=
  match latex_expr, reply with
  | _, SolveReply.raise msg => [solveErrorStep msg]
  | _, SolveReply.json data =>
    match data with
    | JVal.obj fields =>
      match pyIter ((List.lookup "steps" fields).getD (JVal.arr [])) with
      | Except.error msg => [solveErrorStep msg]
      | Except.ok items => items.filterMap stepOfEntry
    | _ => [solveErrorStep "AttributeError: object has no attribute get"]


/-- The note text appended when the OCR call raises in `/solve`. -/
def ocrNote : String := "Gemini OCR unavailable (quota may be exceeded)."

/-- The note text appended when the solver call raises in `/solve`. -/
def solverNote : String := "Gemini solver unavailable (quota may be exceeded)."

/-- The note text set when the SymPy fallback is engaged. -/
def fallbackNote : String := "SymPy fallback used."

/-- The OCR stage of `/solve`: `latex = ocr_with_gemini(img) or ""`
inside its own `try`; on an exception `latex = ""` and the OCR note is
set. (`s or ""` is the identity on strings, since a falsy string is
already `""`.) Returns `(latex, note)`. -/
def ocrStage : Except String String → String × String
  | Except.ok s => (s, "")
  | Except.error _ => ("", ocrNote)

/-- The solver stage of `/solve`: `steps = solve_with_gemini(latex) if
latex else []` inside its own `try`; on an exception `steps = []` and
the solver note is appended. Returns `(steps, note)`. -/
def solveStage (latex : String) (note : String)
    (solveRes : String → Except String (List PyStep)) : List PyStep × String :=
  if latex = "" then ([], note)
  else
    match solveRes latex with
    | Except.ok st => (st, note)
    | Except.error _ =>
      ([], if note = "" then solverNote else note ++ " " ++ solverNote)

/-- The fallback stage of `/solve`: `if not steps`, replace them with
`quick_sympy_steps(latex)` and set the fallback note if no note is set
yet. Returns `(steps, note)`. -/
def fallbackStage (latex : String) (steps : List PyStep) (note : String) :
    List PyStep × String :=
  if steps.isEmpty then
    (quick_sympy_steps latex, if note = "" then fallbackNote else note)
  else (steps, note)

/-- The successful `/solve` response body: `latex`, `steps`, and the
`note` key, present exactly when the note string is nonempty. -/
structure SolveResponse where
  latex : String
  steps : List PyStep
  note : Option String

/-- A `/solve` outcome: the response body, or the `error` object built
by the outer `except`. -/
inductive SolveOutcome where
  | ok (r : SolveResponse)
  | err (msg : String)

/-- A `/solve` run together with which optional stages ran: whether
`solve_with_gemini` was invoked and whether the fallback branch was
taken. -/
structure SolveTrace where
  outcome : SolveOutcome
  solverInvoked : Bool
  fallbackInvoked : Bool

/-- The `/solve` handler, parametric in the decode outcome and in the
two adapter calls (`Except.error` modelling an exception escaping the
adapter, `Except.ok` its return value), instrumented with the trace
booleans. -/
def solveHandlerT (decodeRes : Except String Img)
    (ocrFn : Img → Except String String)
    (solveRes : String → Except String (List PyStep)) : SolveTrace :=
  match decodeRes with
  | Except.error e => ⟨SolveOutcome.err e, false, false⟩
  | Except.ok img =>
    let latexNote := ocrStage (ocrFn img)
    let latex := latexNote.1
    let stepsNote := solveStage latex latexNote.2 solveRes
    let finalPair := fallbackStage latex stepsNote.1 stepsNote.2
    ⟨SolveOutcome.ok
      ⟨latex, finalPair.1, if finalPair.2 = "" then none else some finalPair.2⟩,
     latex ≠ "", stepsNote.1.isEmpty⟩

/-- The image constructed by `/solve` from the uploaded bytes:
`Image.open(io.BytesIO(contents)).convert("RGB")`. -/
def solveDecodedImg (contents : List Nat) : Img :=
  Img.convert "RGB" (Img.decoded contents)

/-- The `/solve` handler wired to the actual adapters: the decode
outcome, then `ocr_with_gemini` on the decoded image with the OCR
oracle, then `solve_with_gemini` with the solver oracle. Neither
adapter raises, so both are passed as `Except.ok`. -/
def fullSolve (decodeRes : Except String (List Nat))
    (gen : GenaiResult) (reply : SolveReply) : SolveTrace :=
  solveHandlerT (decodeRes.map solveDecodedImg)
    (fun img => Except.ok (ocr_with_gemini (OcrInput.pilImage img) gen))
    (fun l => Except.ok (solve_with_gemini l reply))

/-- The bytes (with MIME type) that `/solve` hands to the model inside
the OCR adapter for a given upload. -/
def solveOcrSent (contents : List Nat) : Except String (Bytes × Option String) :=
  ocrPrepare (OcrInput.pilImage (solveDecodedImg contents))

/-- Whether some stage of a `/solve` run degraded, in the sense of the
spec: the OCR call raised past its boundary, the step-solver stage
raised or was skipped, or the symbolic fallback was used. -/
def stageDegraded (decodeRes : Except String Img)
    (ocrFn : Img → Except String String)
    (solveRes : String → Except String (List PyStep)) : Bool :=
  match decodeRes with
  | Except.error _ => false
  | Except.ok img =>
    let ocrRaised := match ocrFn img with
      | Except.error _ => true
      | Except.ok _ => false
    let latex := (ocrStage (ocrFn img)).1
    let skipped := latex == ""
    let solverRaised := !skipped && (match solveRes latex with
      | Except.error _ => true
      | Except.ok _ => false)
    ocrRaised || solverRaised || skipped ||
      (solveHandlerT decodeRes ocrFn solveRes).fallbackInvoked

/-- Whether a JSON value is a string. -/
def isStrVal : JVal → Bool
  | JVal.str _ => true
  | _ => false

/-- Both fields of a step are JSON strings. -/
def stepIsStrings (s : PyStep) : Bool :=
  isStrVal s.step && isStrVal s.detail

/-- A step-dict entry is well typed when each of its `step` and
`detail` keys is either absent or bound to a JSON string. -/
def strOrMissing (fs : List (String × JVal)) (k : String) : Bool :=
  match List.lookup k fs with
  | none => true
  | some (JVal.str _) => true
  | some _ => false

/-- A solver reply is well typed when every object entry of its
`steps` array binds `step` and `detail` (if at all) to strings. -/
def replyWellTyped : SolveReply → Bool
  | SolveReply.raise _ => true
  | SolveReply.json (JVal.obj fields) =>
    match List.lookup "steps" fields with
    | some (JVal.arr items) =>
      items.all (fun it =>
        match it with
        | JVal.obj fs => strOrMissing fs "step" && strOrMissing fs "detail"
        | _ => true)
    | _ => true
  | SolveReply.json _ => true

/-- Modelled from the spec: recognise a model reply that is
"parseable as JSON containing an `equations` array" — here the JSON
object with the single key `equations` bound to an array of plain
string literals — and extract those strings. -/
def parseJString (cs : List Char) : Option (String × List Char) :=
  match cs with
  | '"' :: rest =>
    match rest.dropWhile (fun c => c ≠ '"') with
    | '"' :: rem =>
      if (rest.takeWhile (fun c => c ≠ '"')).contains '\\' then none
      else some (⟨rest.takeWhile (fun c => c ≠ '"')⟩, rem)
    | _ => none
  | _ => none

/-- After one string of the `equations` array: parse `, "..."`
repetitions until something else is seen. -/
def parseStrListRest (fuel : Nat) (acc : List String) (cs : List Char) :
    Option (List String × List Char) :=
  match fuel with
  | 0 => none
  | fuel + 1 =>
    match cs.dropWhile isWsChar with
    | ',' :: rest =>
      match parseJString (rest.dropWhile isWsChar) with
      | some (s, rem) => parseStrListRest fuel (acc ++ [s]) rem
      | none => none
    | other => some (acc, other)

/-- Closing `]`, `}` and end of input after the `equations` array. -/
def finishEqObj (items : List String) (cs : List Char) : Option (List String) :=
  match cs.dropWhile isWsChar with
  | ']' :: r1 =>
    match r1.dropWhile isWsChar with
    | '}' :: r2 =>
      match r2.dropWhile isWsChar with
      | [] => some items
      | _ => none
    | _ => none
  | _ => none

/-- Modelled from the spec: the reply shapes the spec's OCR contract
singles out — a JSON object `\x7b"equations": [...strings...]\x7d`;
returns the strings of the array when the reply has that shape. -/
def parse_equations (s : String) : Option (List String) :=
  match s.data.dropWhile isWsChar with
  | '{' :: r1 =>
    match parseJString (r1.dropWhile isWsChar) with
    | some (k, r2) =>
      if k = "equations" then
        match r2.dropWhile isWsChar with
        | ':' :: r3 =>
          match r3.dropWhile isWsChar with
          | '[' :: r4 =>
            match r4.dropWhile isWsChar with
            | ']' :: r5 => finishEqObj [] (']' :: r5).tail
            | cs =>
              match parseJString cs with
              | some (s1, rem) =>
                match parseStrListRest (rem.length + 1) [s1] rem with
                | some (items, rem2) => finishEqObj items rem2
                | none => none
              | none => none
          | _ => none
        | _ => none
      else none
    | none => none
  | _ => none

/-- The fallback never returns the empty list: both branches of
`quick_sympy_steps` produce a nonempty literal. -/
theorem quick_sympy_steps_ne_nil (latex : String) : quick_sympy_steps latex ≠ [] := by
  unfold quick_sympy_steps
  cases h : sympyWork latex <;> simp

/-- Shape of the `/solve` trace when the OCR stage raises. -/
theorem trace_ocr_err (img : Img) (o : Img → Except String String)
    (s : String → Except String (List PyStep)) (e : String) (ho : o img = Except.error e) :
    solveHandlerT (Except.ok img) o s =
      ⟨SolveOutcome.ok ⟨"", quick_sympy_steps "", some ocrNote⟩, false, true⟩ := by
  simp [solveHandlerT, ho, ocrStage, solveStage, fallbackStage, ocrNote]

/-- Shape of the `/solve` trace when OCR returns the empty string. -/
theorem trace_skip (img : Img) (o : Img → Except String String)
    (s : String → Except String (List PyStep)) (ho : o img = Except.ok "") :
    solveHandlerT (Except.ok img) o s =
      ⟨SolveOutcome.ok ⟨"", quick_sympy_steps "", some fallbackNote⟩, false, true⟩ := by
  simp [solveHandlerT, ho, ocrStage, solveStage, fallbackStage, fallbackNote]

/-- Shape of the `/solve` trace when OCR returns nonempty LaTeX and
the solver stage raises past its boundary. -/
theorem trace_solver_err (img : Img) (o : Img → Except String String)
    (s : String → Except String (List PyStep)) (lx e : String)
    (ho : o img = Except.ok lx) (hlx : lx ≠ "") (hs : s lx = Except.error e) :
    solveHandlerT (Except.ok img) o s =
      ⟨SolveOutcome.ok ⟨lx, quick_sympy_steps lx, some solverNote⟩, true, true⟩ := by
  simp [solveHandlerT, ho, ocrStage, solveStage, fallbackStage, hs, hlx, solverNote]

/-- Shape of the `/solve` trace when OCR returns nonempty LaTeX and
the solver stage returns the empty list. -/
theorem trace_fb (img : Img) (o : Img → Except String String)
    (s : String → Except String (List PyStep)) (lx : String)
    (ho : o img = Except.ok lx) (hlx : lx ≠ "") (hs : s lx = Except.ok []) :
    solveHandlerT (Except.ok img) o s =
      ⟨SolveOutcome.ok ⟨lx, quick_sympy_steps lx, some fallbackNote⟩, true, true⟩ := by
  simp [solveHandlerT, ho, ocrStage, solveStage, fallbackStage, hs, hlx, fallbackNote]

/-- Shape of the `/solve` trace when OCR returns nonempty LaTeX and
the solver stage returns a nonempty step list. -/
theorem trace_ok (img : Img) (o : Img → Except String String)
    (s : String → Except String (List PyStep)) (lx : String) (st : List PyStep)
    (ho : o img = Except.ok lx) (hlx : lx ≠ "") (hs : s lx = Except.ok st) (hst : st ≠ []) :
    solveHandlerT (Except.ok img) o s =
      ⟨SolveOutcome.ok ⟨lx, st, none⟩, true, false⟩ := by
  simp [solveHandlerT, ho, ocrStage, solveStage, fallbackStage, hs, hlx, hst]

/-- Well-typed step dicts yield string field values through
`s.get(key, "")`. -/
theorem strOrMissing_pyGetStr (fs : List (String × JVal)) (k : String)
    (h : strOrMissing fs k = true) : isStrVal (pyGetStr fs k) = true := by
  unfold strOrMissing at h
  unfold pyGetStr
  cases hl : List.lookup k fs with
  | none => rfl
  | some v => rw [hl] at h; cases v <;> simp_all [isStrVal]

/-- C3: the symbolic fallback splits an input containing `=` on the
first occurrence, parses both sides and works on `left - right`
(otherwise parses the whole string); on success it returns exactly the
two steps "Parse LaTeX" (the parsed expression) then "Simplify" (the
simplified expression), and on any parse failure exactly the single
"Could not parse with SymPy" step with the error message. -/
theorem C3_fallback_structure (latex : String) :
    quick_sympy_steps latex =
      match (if latex.data.contains '=' then
          (sympify (splitFirstEq latex).1).bind (fun l =>
            Except.map (fun r => l.sub r) (sympify (splitFirstEq latex).2))
        else sympify latex) with
      | Except.ok e =>
        [⟨JVal.str "Parse LaTeX", JVal.str e.str⟩,
         ⟨JVal.str "Simplify", JVal.str (simplify e).str⟩]
      | Except.error m =>
        [⟨JVal.str "Could not parse with SymPy", JVal.str m⟩] := by
  have hw : sympyWork latex =
      (if latex.data.contains '=' then
          (sympify (splitFirstEq latex).1).bind (fun l =>
            Except.map (fun r => l.sub r) (sympify (splitFirstEq latex).2))
        else sympify latex) := by
    unfold sympyWork
    cases h : latex.data.contains '=' with
    | false => simp [h]
    | true =>
      simp only [h, if_true]
      cases h1 : sympify (splitFirstEq latex).1 <;>
        cases h2 : sympify (splitFirstEq latex).2 <;>
        simp [Except.bind, Except.map]
  unfold quick_sympy_steps
  rw [hw]

/-- C5: the fallback on the exact input `"x+2=5"` returns the two
steps with detail `"x-3"`, and on `"2+2"` the two steps with detail
`"4"`. -/
theorem C5_fallback_concrete_outputs :
    quick_sympy_steps "x+2=5" =
      [⟨JVal.str "Parse LaTeX", JVal.str "x-3"⟩,
       ⟨JVal.str "Simplify", JVal.str "x-3"⟩] ∧
    quick_sympy_steps "2+2" =
      [⟨JVal.str "Parse LaTeX", JVal.str "4"⟩,
       ⟨JVal.str "Simplify", JVal.str "4"⟩] :=
  ⟨rfl, rfl⟩

/-- C7: on any failure inside the OCR adapter — unsupported input
type, file-read failure, a raised model call, or an absent reply text
— `ocr_with_gemini` returns the empty string (and, being total, never
raises past its boundary). -/
theorem C7_ocr_swallows (inp : OcrInput) (gen : GenaiResult)
    (h : (∃ e, ocrPrepare inp = Except.error e) ∨
      (∃ m, gen = GenaiResult.raise m) ∨ gen = GenaiResult.reply none) :
    ocr_with_gemini inp gen = "" := by
  unfold ocr_with_gemini
  rcases h with ⟨e, he⟩ | ⟨m, rfl⟩ | rfl
  · rw [he]
  · cases hp : ocrPrepare inp <;> simp
  · cases hp : ocrPrepare inp <;> simp

/-- Witness for C7 at the unsupported-input failure. -/
theorem C7_witness :
    ocr_with_gemini (OcrInput.unsupported "int") (GenaiResult.reply (some "x")) = "" :=
  C7_ocr_swallows _ _ (Or.inl ⟨"Unsupported input type: int", rfl⟩)

/-- C10: every `/solve` run that produces a response (not an error
object) has a nonempty `steps` array. -/
theorem C10_steps_nonempty (d : Except String Img) (o : Img → Except String String)
    (s : String → Except String (List PyStep)) (r : SolveResponse)
    (h : (solveHandlerT d o s).outcome = SolveOutcome.ok r) :
    r.steps ≠ [] := by
  cases d with
  | error e => simp [solveHandlerT] at h
  | ok img =>
    cases ho : o img with
    | error e =>
      rw [trace_ocr_err img o s e ho] at h
      simp only [SolveOutcome.ok.injEq] at h
      rw [← h]
      exact quick_sympy_steps_ne_nil ""
    | ok lx =>
      by_cases hlx : lx = ""
      · subst hlx
        rw [trace_skip img o s ho] at h
        simp only [SolveOutcome.ok.injEq] at h
        rw [← h]
        exact quick_sympy_steps_ne_nil ""
      · cases hs : s lx with
        | error e =>
          rw [trace_solver_err img o s lx e ho hlx hs] at h
          simp only [SolveOutcome.ok.injEq] at h
          rw [← h]
          exact quick_sympy_steps_ne_nil lx
        | ok st =>
          by_cases hst : st = []
          · subst hst
            rw [trace_fb img o s lx ho hlx hs] at h
            simp only [SolveOutcome.ok.injEq] at h
            rw [← h]
            exact quick_sympy_steps_ne_nil lx
          · rw [trace_ok img o s lx st ho hlx hs hst] at h
            simp only [SolveOutcome.ok.injEq] at h
            rw [← h]
            exact hst

/-- Witness for C10 on a run whose OCR result is empty. -/
theorem C10_witness :
    (⟨"", quick_sympy_steps "", some fallbackNote⟩ : SolveResponse).steps ≠ [] :=
  C10_steps_nonempty (Except.ok (Img.decoded []))
    (fun _ => Except.ok "") (fun _ => Except.ok []) _ rfl

/-- C4: when the OCR stage returns the empty string, the step-solver
adapter is never invoked, the fallback is invoked with `""`, and that
fallback call returns the single diagnostic step. -/
theorem C4_empty_latex (img : Img) (o : Img → Except String String)
    (s : String → Except String (List PyStep)) (ho : o img = Except.ok "") :
    solveHandlerT (Except.ok img) o s =
      ⟨SolveOutcome.ok ⟨"", quick_sympy_steps "", some fallbackNote⟩, false, true⟩ ∧
    quick_sympy_steps "" =
      [⟨JVal.str "Could not parse with SymPy",
        JVal.str "Sympify of expression could not parse  failed"⟩] :=
  ⟨trace_skip img o s ho, rfl⟩

/-- Witness for C4 at a concrete run. -/
theorem C4_witness :
    solveHandlerT (Except.ok (Img.decoded [])) (fun _ => Except.ok "")
        (fun _ => Except.ok []) =
      ⟨SolveOutcome.ok ⟨"", quick_sympy_steps "", some fallbackNote⟩, false, true⟩ ∧
    quick_sympy_steps "" =
      [⟨JVal.str "Could not parse with SymPy",
        JVal.str "Sympify of expression could not parse  failed"⟩] :=
  C4_empty_latex (Img.decoded []) (fun _ => Except.ok "") (fun _ => Except.ok []) rfl

/-- C1: when the solver adapter's external call fails, the adapter
returns the single synthetic "AI solver unavailable" step, and since
that list is nonempty the `/solve` emptiness check does not engage the
symbolic fallback (the trace's fallback flag is `false` and the
response carries exactly the synthetic step, with no note). -/
theorem C1_solver_inband_failure (contents : List Nat) (gen : GenaiResult) (msg : String)
    (hne : ocr_with_gemini (OcrInput.pilImage (solveDecodedImg contents)) gen ≠ "") :
    solve_with_gemini (ocr_with_gemini (OcrInput.pilImage (solveDecodedImg contents)) gen)
        (SolveReply.raise msg) = [solveErrorStep msg] ∧
    fullSolve (Except.ok contents) gen (SolveReply.raise msg) =
      ⟨SolveOutcome.ok
        ⟨ocr_with_gemini (OcrInput.pilImage (solveDecodedImg contents)) gen,
         [solveErrorStep msg], none⟩, true, false⟩ := by
  refine ⟨rfl, ?_⟩
  show solveHandlerT (Except.ok (solveDecodedImg contents))
      (fun img => Except.ok (ocr_with_gemini (OcrInput.pilImage img) gen))
      (fun l => Except.ok (solve_with_gemini l (SolveReply.raise msg))) = _
  exact trace_ok _ _ _ _ _ rfl hne rfl (by simp [solveErrorStep])

/-- Witness for C1 at a concrete upload and reply. -/
theorem C1_witness :
    fullSolve (Except.ok []) (GenaiResult.reply (some "x")) (SolveReply.raise "boom") =
      ⟨SolveOutcome.ok ⟨"x", [solveErrorStep "boom"], none⟩, true, false⟩ :=
  (C1_solver_inband_failure [] (GenaiResult.reply (some "x")) "boom" (by decide)).2

/-- C2: a `/solve` run that produces a response carries the `note`
key exactly when some stage degraded — the OCR call raised, the solver
stage raised or was skipped, or the fallback was engaged. -/
theorem C2_note_iff_degraded (d : Except String Img) (o : Img → Except String String)
    (s : String → Except String (List PyStep)) (r : SolveResponse)
    (h : (solveHandlerT d o s).outcome = SolveOutcome.ok r) :
    r.note.isSome = stageDegraded d o s := by
  cases d with
  | error e => simp [solveHandlerT] at h
  | ok img =>
    cases ho : o img with
    | error e =>
      rw [trace_ocr_err img o s e ho] at h
      simp only [SolveOutcome.ok.injEq] at h
      rw [← h]
      simp [stageDegraded, ho]
    | ok lx =>
      by_cases hlx : lx = ""
      · subst hlx
        rw [trace_skip img o s ho] at h
        simp only [SolveOutcome.ok.injEq] at h
        rw [← h]
        simp [stageDegraded, ho, ocrStage]
      · cases hs : s lx with
        | error e =>
          rw [trace_solver_err img o s lx e ho hlx hs] at h
          simp only [SolveOutcome.ok.injEq] at h
          rw [← h]
          simp [stageDegraded, ho, ocrStage, hs, hlx]
        | ok st =>
          by_cases hst : st = []
          · subst hst
            rw [trace_fb img o s lx ho hlx hs] at h
            simp only [SolveOutcome.ok.injEq] at h
            rw [← h]
            simp [stageDegraded, ho, ocrStage, hs, trace_fb img o s lx ho hlx hs]
          · rw [trace_ok img o s lx st ho hlx hs hst] at h
            simp only [SolveOutcome.ok.injEq] at h
            rw [← h]
            simp [stageDegraded, ho, ocrStage, hs, hlx,
              trace_ok img o s lx st ho hlx hs hst]

/-- Witness for C2 at a fully successful model-backed run: no note,
no degradation. -/
theorem C2_witness :
    (⟨"x", [⟨JVal.str "a", JVal.str "b"⟩], none⟩ : SolveResponse).note.isSome =
      stageDegraded (Except.ok (Img.decoded [])) (fun _ => Except.ok "x")
        (fun _ => Except.ok [⟨JVal.str "a", JVal.str "b"⟩]) :=
  C2_note_iff_degraded (Except.ok (Img.decoded [])) (fun _ => Except.ok "x")
    (fun _ => Except.ok [⟨JVal.str "a", JVal.str "b"⟩]) _ rfl

/-- C6 counterexample: on a reply that is JSON with an `equations`
array, the OCR adapter does not join the entries — it returns the raw
trimmed reply text. -/
theorem C6_counterexample :
    parse_equations "\x7b\"equations\": [\"a\", \"b\"]\x7d" = some ["a", "b"] ∧
    ocr_with_gemini (OcrInput.rawBytes [])
        (GenaiResult.reply (some "\x7b\"equations\": [\"a\", \"b\"]\x7d")) ≠
      pyStrip (String.intercalate " " ["a", "b"]) :=
  ⟨rfl, by decide⟩

/-- C6 amended: for every reply text delivered by the model, the OCR
adapter returns that raw text trimmed — no JSON `equations` extraction
is performed in this revision. -/
theorem C6_amended_raw_trim (inp : OcrInput) (t : String)
    (h : ∃ bm, ocrPrepare inp = Except.ok bm) :
    ocr_with_gemini inp (GenaiResult.reply (some t)) = pyStrip t := by
  obtain ⟨bm, hbm⟩ := h
  unfold ocr_with_gemini
  rw [hbm]
  by_cases ht : t = ""
  · subst ht; rfl
  · simp [ht]

/-- Witness for C6 amended at a concrete reply. -/
theorem C6_amended_witness :
    ocr_with_gemini (OcrInput.rawBytes []) (GenaiResult.reply (some " hi ")) =
      pyStrip " hi " :=
  C6_amended_raw_trim (OcrInput.rawBytes []) " hi " ⟨(Bytes.raw [], some "image/png"), rfl⟩

/-- C8 counterexample: the bytes `/solve` hands to the OCR model for a
concrete upload are not the Image Normalizer's output for that upload
— `preprocess_image` is never applied on the `/solve` path. -/
theorem C8_counterexample :
    solveOcrSent [] ≠ Except.ok (normalizeSpec [], some "image/png") := by
  intro h
  simp [solveOcrSent, ocrPrepare, solveDecodedImg, normalizeSpec, preprocess_image] at h

/-- C8 amended: for every upload, the bytes sent to the OCR model are
the uploaded image decoded, converted to RGB, and PNG re-encoded
inside the OCR adapter; they are never an output of
`preprocess_image` (no grayscale or autocontrast happens). -/
theorem C8_amended_pipeline (contents : List Nat) :
    solveOcrSent contents =
      Except.ok (Bytes.pngOf (Img.convert "RGB" (Img.decoded contents)), some "image/png") ∧
    ∀ i : Img, Bytes.pngOf (Img.convert "RGB" (Img.decoded contents)) ≠ preprocess_image i := by
  refine ⟨rfl, ?_⟩
  intro i h
  simp [preprocess_image] at h

/-- C9 counterexample: a model reply binding `step` to JSON `null`
flows through to the `/solve` response unchanged — the response then
contains a step whose `step` field is not a string. -/
theorem C9_counterexample :
    solve_with_gemini "x"
        (SolveReply.json (JVal.obj [("steps", JVal.arr [JVal.obj [("step", JVal.null)]])])) =
      [⟨JVal.null, JVal.str ""⟩] ∧
    stepIsStrings ⟨JVal.null, JVal.str ""⟩ = false ∧
    (fullSolve (Except.ok []) (GenaiResult.reply (some "x"))
        (SolveReply.json (JVal.obj [("steps", JVal.arr [JVal.obj [("step", JVal.null)]])]))).outcome =
      SolveOutcome.ok ⟨"x", [⟨JVal.null, JVal.str ""⟩], none⟩ :=
  ⟨rfl, rfl, rfl⟩

/-- C9 amended: every step dict carries both keys; a missing
`step`/`detail` is replaced by the empty string; all fallback and
synthetic-error steps have string fields; and model-backed steps have
string fields whenever the model supplies strings (or omits the keys)
— but a non-string model value is passed through unchanged. -/
theorem C9_amended_fields :
    (∀ latex : String, ∀ st ∈ quick_sympy_steps latex, stepIsStrings st = true) ∧
    (∀ msg : String, stepIsStrings (solveErrorStep msg) = true) ∧
    (∀ (latex : String) (reply : SolveReply), replyWellTyped reply = true →
      ∀ st ∈ solve_with_gemini latex reply, stepIsStrings st = true) := by
  refine ⟨?_, ?_, ?_⟩
  · intro latex st hst
    unfold quick_sympy_steps at hst
    cases h : sympyWork latex <;> rw [h] at hst <;> simp at hst
    · rw [hst]; rfl
    · rcases hst with rfl | rfl <;> rfl
  · intro msg; rfl
  · intro latex reply hwt st hst
    cases reply with
    | raise msg =>
      simp [solve_with_gemini] at hst
      rw [hst]; rfl
    | json data =>
      cases data with
      | obj fields =>
        simp only [solve_with_gemini] at hst
        simp only [replyWellTyped] at hwt
        cases hl : List.lookup "steps" fields with
        | none => rw [hl] at hst; simp [pyIter] at hst
        | some v =>
          rw [hl] at hst hwt
          cases v with
          | arr items =>
            simp only [Option.getD_some, pyIter] at hst
            rw [List.mem_filterMap] at hst
            obtain ⟨it, hit, hse⟩ := hst
            cases it <;> simp [stepOfEntry] at hse
            rename_i fs
            rw [List.all_eq_true] at hwt
            have hfs := hwt _ hit
            simp only [Bool.and_eq_true] at hfs
            rw [← hse]
            unfold stepIsStrings
            rw [strOrMissing_pyGetStr fs "step" hfs.1,
              strOrMissing_pyGetStr fs "detail" hfs.2]
            rfl
          | str s2 =>
            simp [pyIter, List.filterMap_map, stepOfEntry, Function.comp] at hst
          | obj fs2 =>
            simp [pyIter, List.filterMap_map, stepOfEntry, Function.comp] at hst
          | num n => simp [pyIter] at hst; rw [hst]; rfl
          | bool b => simp [pyIter] at hst; rw [hst]; rfl
          | null => simp [pyIter] at hst; rw [hst]; rfl
      | str s2 => simp [solve_with_gemini] at hst; rw [hst]; rfl
      | num n => simp [solve_with_gemini] at hst; rw [hst]; rfl
      | bool b => simp [solve_with_gemini] at hst; rw [hst]; rfl
      | null => simp [solve_with_gemini] at hst; rw [hst]; rfl
      | arr xs => simp [solve_with_gemini] at hst; rw [hst]; rfl

/-- Witness for C9 amended at a well-typed concrete reply. -/
theorem C9_amended_witness :
    stepIsStrings ⟨JVal.str "a", JVal.str ""⟩ = true :=
  C9_amended_fields.2.2 "x"
    (SolveReply.json (JVal.obj [("steps", JVal.arr [JVal.obj [("step", JVal.str "a")]])]))
    rfl ⟨JVal.str "a", JVal.str ""⟩
    (show _ ∈ [(⟨JVal.str "a", JVal.str ""⟩ : PyStep)] from List.mem_singleton.mpr rfl)
